import Mathlib

/-!
# localtunnel client: connection-forwarding engine

A shallow embedding of `main.go`: the command-line configuration and TLS policy
construction of `main`, the accept loop, the signal handler and deferred cleanup
of `main`, and `forward`.

Calls into the Go standard library and into the tunnel library are recorded as
effects; the values they return (file contents, dial results, accept results,
results of `Close`) are inputs of the model.
-/

namespace Localtunnel

/-! ## Go errors -/

/-- Go error values. `contextCanceled` is the sentinel `context.Canceled`,
`errorString` a leaf error made by `errors.New`, and `wrapped` an error with an
`Unwrap` method (such as `*net.OpError`) carrying its own message. -/
inductive GoError where
  | contextCanceled : GoError
  | errorString (msg : String) : GoError
  | wrapped (msg : String) (inner : GoError) : GoError
  deriving DecidableEq

/-- The method `Error()` of an error value. -/
def GoError.Error : GoError → String
  | .contextCanceled => "context canceled"
  | .errorString msg => msg
  | .wrapped msg _ => msg

/-- The walk of `errors.Is` down the `Unwrap` chain of a non-nil error. -/
def GoError.chainIs : GoError → GoError → Bool
  | .wrapped msg inner, target =>
      decide (GoError.wrapped msg inner = target) || inner.chainIs target
  | .contextCanceled, target => decide (GoError.contextCanceled = target)
  | .errorString msg, target => decide (GoError.errorString msg = target)

/-- The function `errors.Is(err, target)`; `none` is the nil error. -/
def errorsIs : Option GoError → GoError → Bool
  | none, _ => false
  | some e, target => e.chainIs target

/-! ## TLS policy and connections -/

/-- A `tls.Certificate` as returned by `tls.LoadX509KeyPair`. -/
structure Certificate where
  certFile : String
  keyFile : String
  deriving DecidableEq

/-- An `x509.CertPool`: the certificates it holds. -/
structure CertPool where
  certs : List String
  deriving DecidableEq

/-- The function `x509.NewCertPool()`. -/
def NewCertPool : CertPool := ⟨[]⟩

/-- The fields of `tls.Config` that `main` assigns, plus `RootCAs`, the pool a
TLS client verifies the server certificate against. Go zero values are `""`,
`false`, the empty slice and the nil pool. -/
structure TLSConfig where
  ServerName : String := ""
  InsecureSkipVerify : Bool := false
  Certificates : List Certificate := []
  RootCAs : Option CertPool := none
  ClientCAs : Option CertPool := none
  deriving DecidableEq

/-- A `net.Conn`: a connection accepted from the tunnel listener, a TCP
connection returned by the dialer, or the `*tls.Conn` returned by
`tls.Client(conn, config)`. -/
inductive Conn where
  | tunnel (localAddr : String) (id : Nat) : Conn
  | tcp (addr : String) (id : Nat) : Conn
  | tlsClient (inner : Conn) (config : TLSConfig) : Conn
  deriving DecidableEq

/-- The method `LocalAddr()` rendered as text. -/
def Conn.LocalAddr : Conn → String
  | .tunnel localAddr _ => localAddr
  | .tcp addr _ => addr
  | .tlsClient inner _ => inner.LocalAddr

/-! ## Effects -/

/-- The two places of `main` that call `listener.Close()`. -/
inductive CloseSite where
  | signalHandler : CloseSite
  | deferred : CloseSite
  deriving DecidableEq

/-- Options passed to `lt.Listen`. -/
structure Options where
  Subdomain : String
  BaseURL : String
  MaxConnections : Nat
  deriving DecidableEq

/-- Observable actions of the program. `logFatal msg` is `log.Fatal`: it writes
`msg` to the standard logger and then calls `os.Exit(1)`. `connClose` is the
method `Close()` of a `net.Conn`. -/
inductive Effect where
  | logFatal (msg : String) : Effect
  | logPrintln (msg : String) : Effect
  | logPrintf (msg : String) : Effect
  | loggerPrintln (msg : String) : Effect
  | println (msg : String) : Effect
  | fmtPrintln (msg : String) : Effect
  | fmtPrintf (msg : String) : Effect
  | printUsage : Effect
  | osExit (code : Nat) : Effect
  | ltListen (opts : Options) : Effect
  | cmdStart (name : String) (url : String) : Effect
  | accept : Effect
  | goForward (downstream : Conn) (upstreamAddr : String) (tlsConfig : Option TLSConfig) : Effect
  | ctxCancel : Effect
  | listenerClose (site : CloseSite) : Effect
  | dialContext (network : String) (addr : String) : Effect
  | setKeepAlive (c : Conn) (keepalive : Bool) : Effect
  | goCopy (dst src : Conn) : Effect
  | ioCopy (dst src : Conn) : Effect
  | connClose (c : Conn) : Effect
  deriving DecidableEq

/-! ## forward -/

/-- The result of `dialer.DialContext(ctx, "tcp", upstreamAddr)`: a TCP
connection with a nil error, or a non-nil error. -/
inductive DialResult where
  | connected (tcpUpstream : Conn) : DialResult
  | failed (err : GoError) : DialResult
  deriving DecidableEq

/-- The error component of a dial result. -/
def DialResult.err : DialResult → Option GoError
  | .connected _ => none
  | .failed e => some e

/-- What one call of `forward` does: the effects of the call itself in order,
the effects of each goroutine it starts, and whether it ended the process
through `log.Fatal`. -/
structure ForwardRun where
  body : List Effect
  tasks : List (List Effect)
  fatal : Bool
  deriving DecidableEq

/-- One of the two goroutines of `forward`: `io.Copy(dst, src)`, then a line on
the debug logger when the copy returned an error. -/
def copyTask (dst src : Conn) (res : Option GoError) : List Effect :=
  match res with
  | none => [.ioCopy dst src]
  | some e => [.ioCopy dst src, .loggerPrintln ("stream error: " ++ e.Error)]

/-- The endpoint `upstream` of `forward`: the TCP connection itself, replaced
by `tls.Client(tcpUpstream, tlsConfig)` when `tlsConfig` is not nil. -/
def upstreamConn (tcpUpstream : Conn) (tlsConfig : Option TLSConfig) : Conn :=
  match tlsConfig with
  | none => tcpUpstream
  | some cfg => .tlsClient tcpUpstream cfg

/-- The function `forward`. `dial` is what `DialContext` returns, `copyDown` and
`copyUp` what the two `io.Copy` calls return. -/
def forward (dial : DialResult) (copyDown copyUp : Option GoError)
    (downstream : Conn) (upstreamAddr : String) (tlsConfig : Option TLSConfig) :
    ForwardRun :=
  if errorsIs dial.err .contextCanceled then
    { body := [.dialContext "tcp" upstreamAddr], tasks := [], fatal := false }
  else
    match dial with
    | .failed err =>
        { body := [.dialContext "tcp" upstreamAddr,
                   .logFatal ("failed to connect to upstream service:" ++ err.Error)],
          tasks := [], fatal := true }
    | .connected tcpUpstream =>
        let upstream := upstreamConn tcpUpstream tlsConfig
        { body := [.dialContext "tcp" upstreamAddr,
                   .setKeepAlive tcpUpstream true,
                   .goCopy downstream upstream,
                   .goCopy upstream downstream],
          tasks := [copyTask downstream upstream copyDown,
                    copyTask upstream downstream copyUp],
          fatal := false }

/-- Every effect of a call of `forward`: its own and those of its goroutines. -/
def ForwardRun.allEffects (r : ForwardRun) : List Effect :=
  r.body ++ r.tasks.flatten

/-! ## main: configuration and start-up -/

/-- The command-line flags declared by `main`, with their pflag defaults.
`port` and `maxConnections` are `uint16` flags; `openURL` is the flag `open`. -/
structure Flags where
  port : Nat := 0
  host : String := "https://localtunnel.me"
  subdomain : String := ""
  localHost : String := "localhost"
  localHttps : Bool := false
  localCert : String := ""
  localKey : String := ""
  localCa : String := ""
  allowInvalidCert : Bool := false
  openURL : Bool := false
  printRequests : Bool := false
  help : Bool := false
  version : Bool := false
  debug : Bool := false
  maxConnections : Nat := 10
  deriving DecidableEq

/-- What the surroundings of the process answer to the calls of `main` before the
accept loop: `tls.LoadX509KeyPair`, `os.ReadFile`, the certificates that
`AppendCertsFromPEM` finds in PEM data, the error of `lt.Listen`, the value of
`listener.URL()`, `runtime.GOOS` and the error of `cmd.Start()`. -/
structure World where
  LoadX509KeyPair : String → String → Except GoError Certificate
  ReadFile : String → Except GoError String
  pemCerts : String → List String
  Listen : Options → Option GoError
  URL : String
  GOOS : String
  Start : Option GoError

/-- The method `AppendCertsFromPEM`: adds the certificates found in the PEM data
to the pool and reports whether there was at least one. -/
def CertPool.AppendCertsFromPEM (pool : CertPool) (found : List String) : CertPool × Bool :=
  (⟨pool.certs ++ found⟩, !found.isEmpty)

/-- The block of `main` that builds `tlsConfig` (the `if *localHttps` statement).
`Except.error msg` is a `log.Fatal` with message `msg`; `Except.ok none` is the
nil `tlsConfig`. -/
def mainTLSConfig (f : Flags) (w : World) : Except String (Option TLSConfig) :=
  if f.localHttps then
    let tlsConfig : TLSConfig := { ServerName := f.localHost }
    let tlsConfig : TLSConfig :=
      if f.allowInvalidCert then { tlsConfig with InsecureSkipVerify := true } else tlsConfig
    if f.localCert == "" || f.localKey == "" then
      .error "invalid args: --local-key or --local-cert is undefined"
    else
      match w.LoadX509KeyPair f.localCert f.localKey with
      | .error err => .error ("failed to load X509 key pair:" ++ err.Error)
      | .ok cert =>
          let tlsConfig : TLSConfig := { tlsConfig with Certificates := [cert] }
          if f.localCa != "" then
            match w.ReadFile f.localCa with
            | .error err => .error ("failed to read CA file:" ++ err.Error)
            | .ok caCert =>
                let appended := NewCertPool.AppendCertsFromPEM (w.pemCerts caCert)
                if !appended.2 then
                  .error "failed to append PEM encoded certificates to the pool: no certificate found"
                else
                  .ok (some { tlsConfig with ClientCAs := some appended.1 })
          else
            .ok (some tlsConfig)
  else
    .ok none

/-- The value `upstreamAddr` of `main`: `fmt.Sprintf("%v:%v", *localHost, *port)`. -/
def upstreamAddr (f : Flags) : String :=
  f.localHost ++ ":" ++ toString f.port

/-- The block of `main` under the comment `Open URL`. -/
def openBrowser (f : Flags) (w : World) : List Effect :=
  if f.openURL then
    let cmd : Option String :=
      if w.GOOS == "linux" then some "xdg-open"
      else if w.GOOS == "darwin" then some "open"
      else if w.GOOS == "windows" then some "explorer.exe"
      else none
    match cmd with
    | some name =>
        match w.Start with
        | some _ => [.cmdStart name w.URL, .logPrintf "failed to open URL"]
        | none => [.cmdStart name w.URL]
    | none => [.logPrintf ("opening URL on " ++ w.GOOS ++ " is not supported\n")]
  else
    []

/-- How the start-up of `main` ends: the process has exited with a status, or the
tunnel is established and `main` goes on to the accept loop with `tlsConfig` and
`upstreamAddr`. -/
inductive Startup where
  | exited (code : Nat) : Startup
  | listening (tlsConfig : Option TLSConfig) (upstreamAddr : String) : Startup
  deriving DecidableEq

/-- The function `main` from the TLS block down to the accept loop: its effects in
order and how it ends. -/
def mainStartup (f : Flags) (w : World) : List Effect × Startup :=
  match mainTLSConfig f w with
  | .error msg => ([.logFatal msg], .exited 1)
  | .ok tlsConfig =>
      if f.help then
        ([.printUsage], .exited 0)
      else if f.version then
        ([.println "0.1.0"], .exited 0)
      else if f.port == 0 then
        ([.println "missing required argument: port", .printUsage, .osExit 1], .exited 1)
      else
        let opts : Options :=
          { Subdomain := f.subdomain, BaseURL := f.host, MaxConnections := f.maxConnections }
        match w.Listen opts with
        | some err =>
            ([.ltListen opts, .logFatal ("failed to initialize local tunnel" ++ err.Error)],
              .exited 1)
        | none =>
            ([.ltListen opts, .fmtPrintln ("your url is: " ++ w.URL)] ++ openBrowser f w,
              .listening tlsConfig (upstreamAddr f))

/-- Whether an effect is a call of `lt.Listen`. -/
def Effect.isListen : Effect → Bool
  | .ltListen _ => true
  | _ => false

/-! ## main: the accept loop -/

/-- The result of `listener.Accept()`: a connection with a nil error, or a non-nil
error. -/
inductive AcceptResult where
  | conn (downStream : Conn) : AcceptResult
  | fail (err : GoError) : AcceptResult
  deriving DecidableEq

/-- How one pass through the body of the loop ends: `break loop`, or the next
iteration. -/
inductive LoopCtl where
  | breakLoop : LoopCtl
  | continueLoop : LoopCtl
  deriving DecidableEq

/-- One iteration of the loop labelled `loop` in `main`. `r` is what `Accept`
returns and `ctxDone` whether `ctx.Done()` is closed when the `select` runs. -/
def acceptIter (r : AcceptResult) (ctxDone : Bool) (upstreamAddr : String)
    (tlsConfig : Option TLSConfig) : List Effect × LoopCtl :=
  match r with
  | .fail err =>
      if err.Error == "listener was closed" && ctxDone then
        ([.accept], .breakLoop)
      else
        ([.accept, .fmtPrintf ("failed to accept connection: " ++ err.Error ++ "\n")],
          .continueLoop)
  | .conn downStream =>
      ([.accept, .logPrintln ("new connection " ++ downStream.LocalAddr),
        .goForward downStream upstreamAddr tlsConfig], .continueLoop)

/-- The loop labelled `loop` run on a finite series of accept results, each with
the state of `ctx.Done()` at its `select`. Returns the effects in order and
whether the loop was left by `break loop`; `false` means the loop is still
running when the series ends. -/
def acceptLoop (upstreamAddr : String) (tlsConfig : Option TLSConfig) :
    List (AcceptResult × Bool) → List Effect × Bool
  | [] => ([], false)
  | (r, ctxDone) :: rest =>
      match acceptIter r ctxDone upstreamAddr tlsConfig with
      | (effs, .breakLoop) => (effs, true)
      | (effs, .continueLoop) =>
          let tail := acceptLoop upstreamAddr tlsConfig rest
          (effs ++ tail.1, tail.2)

/-- The number of `Accept` calls in a series of effects. -/
def acceptCalls (effs : List Effect) : Nat :=
  effs.count .accept


/-! ## main: signal handler, accept loop and deferred cleanup as one process -/

/-- Where the goroutine of `main` stands once the tunnel is established: in the
accept loop, at the deferred `cancel()`, at the deferred `listener.Close()`, or
past it. Deferred calls run last-in first-out, so `cancel()` runs before the
deferred `listener.Close()`. -/
inductive MainPc where
  | accepting : MainPc
  | deferCancel : MainPc
  | deferClose : MainPc
  | returned : MainPc
  deriving DecidableEq

/-- Where the signal-handler goroutine stands: blocked on `<-sigs`, at
`cancel()`, at `listener.Close()`, or past it. -/
inductive HandlerPc where
  | waiting : HandlerPc
  | cancel : HandlerPc
  | close : HandlerPc
  | finished : HandlerPc
  deriving DecidableEq

/-- The state of the process from the accept loop on. `sigs` is the channel of
capacity one, `ctxDone` whether `cancel()` was called, `exited` the exit status
once the process has ended, `trace` the effects so far in order. -/
structure Proc where
  upstreamAddr : String
  tlsConfig : Option TLSConfig
  mainPc : MainPc := .accepting
  handlerPc : HandlerPc := .waiting
  sigs : Option String := none
  ctxDone : Bool := false
  exited : Option Nat := none
  trace : List Effect := []

/-- One scheduling decision: a termination signal arrives, the goroutine of
`main` makes its next move, or the signal handler makes its next move. A move
carries what the tunnel library answers to the call made in it (`Accept` for
`main` in the loop, `Close` at either close site). -/
inductive Sched where
  | signal (sig : String) : Sched
  | stepMain (accepted : AcceptResult) (closeErr : Option GoError) : Sched
  | stepHandler (closeErr : Option GoError) : Sched

/-- The next move of the goroutine of `main`. -/
def stepMain (p : Proc) (accepted : AcceptResult) (closeErr : Option GoError) : Proc :=
  match p.mainPc with
  | .accepting =>
      match acceptIter accepted p.ctxDone p.upstreamAddr p.tlsConfig with
      | (effs, .breakLoop) => { p with trace := p.trace ++ effs, mainPc := .deferCancel }
      | (effs, .continueLoop) => { p with trace := p.trace ++ effs }
  | .deferCancel =>
      { p with trace := p.trace ++ [.ctxCancel], ctxDone := true, mainPc := .deferClose }
  | .deferClose =>
      match closeErr with
      | some _ =>
          { p with trace := p.trace ++ [.listenerClose .deferred,
                                        .logFatal "failed to close local tunnel connection"],
                   mainPc := .returned, exited := some 1 }
      | none =>
          { p with trace := p.trace ++ [.listenerClose .deferred],
                   mainPc := .returned, exited := some 0 }
  | .returned => p

/-- The next move of the signal-handler goroutine. -/
def stepHandler (p : Proc) (closeErr : Option GoError) : Proc :=
  match p.handlerPc with
  | .waiting =>
      match p.sigs with
      | none => p
      | some sig =>
          { p with trace := p.trace ++ [.fmtPrintln (sig ++ " received, exiting...")],
                   sigs := none, handlerPc := .cancel }
  | .cancel =>
      { p with trace := p.trace ++ [.ctxCancel], ctxDone := true, handlerPc := .close }
  | .close =>
      match closeErr with
      | some err =>
          { p with trace := p.trace ++ [.listenerClose .signalHandler,
                                        .logFatal ("failed to stop localtunnel listener:" ++ err.Error)],
                   handlerPc := .finished, exited := some 1 }
      | none =>
          { p with trace := p.trace ++ [.listenerClose .signalHandler],
                   handlerPc := .finished }
  | .finished => p

/-- One step of the process. Nothing moves once the process has exited; a
signal is dropped when the channel is full. -/
def step (p : Proc) (s : Sched) : Proc :=
  if p.exited.isSome then p
  else
    match s with
    | .signal sig =>
        match p.sigs with
        | none => { p with sigs := some sig }
        | some _ => p
    | .stepMain accepted closeErr => stepMain p accepted closeErr
    | .stepHandler closeErr => stepHandler p closeErr

/-- The process run along a schedule. -/
def run (p : Proc) (sched : List Sched) : Proc :=
  sched.foldl step p

/-- The process as `main` enters the accept loop. -/
def Proc.init (upstreamAddr : String) (tlsConfig : Option TLSConfig) : Proc :=
  { upstreamAddr := upstreamAddr, tlsConfig := tlsConfig }

/-- The number of calls of `listener.Close()` made from one site. -/
def closesAt (site : CloseSite) (effs : List Effect) : Nat :=
  effs.count (.listenerClose site)

/-- The number of calls of `listener.Close()` over the whole run. -/
def closeCalls (effs : List Effect) : Nat :=
  closesAt .signalHandler effs + closesAt .deferred effs

/-- The two counters of `listener.Close()` calls agree with the program counters:
a site has closed once exactly when its goroutine is past its close. -/
def CloseInv (p : Proc) : Prop :=
  closesAt .signalHandler p.trace = (if p.handlerPc = .finished then 1 else 0)
    ∧ closesAt .deferred p.trace = (if p.mainPc = .returned then 1 else 0)

/-! ## Concrete inputs -/

/-- Surroundings in which every file loads, the CA file holds one certificate
and the tunnel is established. -/
def healthyWorld : World :=
  { LoadX509KeyPair := fun certFile keyFile => .ok ⟨certFile, keyFile⟩,
    ReadFile := fun name => .ok name,
    pemCerts := fun data => [data],
    Listen := fun _ => none,
    URL := "https://demo.localtunnel.me",
    GOOS := "linux",
    Start := none }

/-- A connection accepted from the tunnel. -/
def demoDownstream : Conn := .tunnel "tunnel:1" 1

/-- A TCP connection to the local service. -/
def demoTCP : Conn := .tcp "localhost:8080" 2

/-- The error reported by `Accept` on a closed listener. -/
def listenerClosed : GoError := .errorString "listener was closed"

/-- Flags for a local HTTPS server with certificate, key and CA files:
`--port 8080 --local-https --local-cert cert.pem --local-key key.pem --local-ca ca.pem`. -/
def httpsFlags : Flags :=
  { port := 8080, localHttps := true, localCert := "cert.pem", localKey := "key.pem",
    localCa := "ca.pem" }

/-- The configuration `main` builds from `httpsFlags` in `healthyWorld`. -/
def httpsPolicy : TLSConfig :=
  { ServerName := "localhost", Certificates := [⟨"cert.pem", "key.pem"⟩],
    ClientCAs := some ⟨["ca.pem"]⟩ }

/-- Flags `--port 8080 --local-https --allow-invalid-cert`. -/
def insecureFlags : Flags :=
  { port := 8080, localHttps := true, allowInvalidCert := true }

/-- Flags `--port 8080 --local-https`: no certificate and no key. -/
def missingCertFlags : Flags :=
  { port := 8080, localHttps := true }

/-- No flag given: the port is missing. -/
def missingPortFlags : Flags :=
  {}

/-- A run in which SIGINT arrives, the handler prints, cancels and closes the
listener, `Accept` then fails with the handle-closed error, and `main` leaves the
loop and runs its deferred calls. `lastClose` is what the deferred
`listener.Close()` returns. -/
def signalSchedule (lastClose : Option GoError) : List Sched :=
  [.signal "interrupt",
   .stepHandler none,
   .stepHandler none,
   .stepHandler none,
   .stepMain (.fail listenerClosed) none,
   .stepMain (.fail listenerClosed) none,
   .stepMain (.fail listenerClosed) lastClose]

/-! ## Lemmas -/

theorem tlsClient_ne_inner (c : Conn) (cfg : TLSConfig) : Conn.tlsClient c cfg ≠ c := by
  intro h
  have hs := congrArg sizeOf h
  simp at hs
  omega

theorem copyTask_no_connClose (dst src : Conn) (res : Option GoError) (c : Conn) :
    Effect.connClose c ∉ copyTask dst src res := by
  cases res <;> simp [copyTask]

theorem forward_canceled (dial : DialResult) (copyDown copyUp : Option GoError)
    (downstream : Conn) (addr : String) (tlsConfig : Option TLSConfig)
    (h : errorsIs dial.err .contextCanceled = true) :
    forward dial copyDown copyUp downstream addr tlsConfig
      = { body := [.dialContext "tcp" addr], tasks := [], fatal := false } := by
  simp [forward, h]

theorem forward_failed (err : GoError) (copyDown copyUp : Option GoError)
    (downstream : Conn) (addr : String) (tlsConfig : Option TLSConfig)
    (h : errorsIs (some err) .contextCanceled = false) :
    forward (.failed err) copyDown copyUp downstream addr tlsConfig
      = { body := [.dialContext "tcp" addr,
                   .logFatal ("failed to connect to upstream service:" ++ err.Error)],
          tasks := [], fatal := true } := by
  simp [forward, DialResult.err, h]

theorem forward_connected (tcpUpstream : Conn) (copyDown copyUp : Option GoError)
    (downstream : Conn) (addr : String) (tlsConfig : Option TLSConfig) :
    forward (.connected tcpUpstream) copyDown copyUp downstream addr tlsConfig
      = { body := [.dialContext "tcp" addr,
                   .setKeepAlive tcpUpstream true,
                   .goCopy downstream (upstreamConn tcpUpstream tlsConfig),
                   .goCopy (upstreamConn tcpUpstream tlsConfig) downstream],
          tasks := [copyTask downstream (upstreamConn tcpUpstream tlsConfig) copyDown,
                    copyTask (upstreamConn tcpUpstream tlsConfig) downstream copyUp],
          fatal := false } := by
  simp [forward, DialResult.err, errorsIs]

/-! ## Claims about forward -/

/-- C1, as stated, fails: on a successful plaintext dial with both copies ending
without error, and on a cancelled dial, the effects of `forward` and of its two
goroutines contain no `Close` of the downstream connection, and on the
successful dial none of the upstream connection either. -/
theorem C1_counterexample :
    Effect.connClose demoDownstream ∉
        (forward (.connected demoTCP) none none demoDownstream "localhost:8080" none).allEffects
      ∧ Effect.connClose demoTCP ∉
        (forward (.connected demoTCP) none none demoDownstream "localhost:8080" none).allEffects
      ∧ Effect.connClose demoDownstream ∉
        (forward (.failed .contextCanceled) none none demoDownstream "localhost:8080"
          none).allEffects := by
  refine ⟨?_, ?_, ?_⟩ <;>
    simp [forward, DialResult.err, errorsIs, GoError.chainIs, ForwardRun.allEffects,
      upstreamConn, copyTask]

/-- C1, amended: `forward` closes no connection. On every dial outcome, whatever
the two copies return, neither its own effects nor those of the goroutines it
starts contain a `Close` of any connection; a cancelled dial returns after the
dial alone, and a successful dial starts the two copy goroutines, each of which
is an `io.Copy` followed at most by a debug log line. -/
theorem C1_forward_closes_nothing (dial : DialResult) (copyDown copyUp : Option GoError)
    (downstream : Conn) (addr : String) (tlsConfig : Option TLSConfig) :
    (∀ c : Conn, Effect.connClose c ∉
        (forward dial copyDown copyUp downstream addr tlsConfig).allEffects)
      ∧ (errorsIs dial.err .contextCanceled = true →
          (forward dial copyDown copyUp downstream addr tlsConfig).allEffects
            = [.dialContext "tcp" addr])
      ∧ (∀ tcpUpstream, dial = .connected tcpUpstream →
          (forward dial copyDown copyUp downstream addr tlsConfig).tasks
            = [copyTask downstream (upstreamConn tcpUpstream tlsConfig) copyDown,
               copyTask (upstreamConn tcpUpstream tlsConfig) downstream copyUp]) := by
  refine ⟨?_, ?_, ?_⟩
  · intro c
    cases dial with
    | connected tcpUpstream =>
        rw [forward_connected]
        have h1 := copyTask_no_connClose downstream (upstreamConn tcpUpstream tlsConfig) copyDown c
        have h2 := copyTask_no_connClose (upstreamConn tcpUpstream tlsConfig) downstream copyUp c
        simp [ForwardRun.allEffects, h1, h2]
    | failed err =>
        cases hc : errorsIs (some err) .contextCanceled with
        | true =>
            rw [forward_canceled _ _ _ _ _ _ (by simpa [DialResult.err] using hc)]
            simp [ForwardRun.allEffects]
        | false =>
            rw [forward_failed _ _ _ _ _ _ hc]
            simp [ForwardRun.allEffects]
  · intro h
    rw [forward_canceled _ _ _ _ _ _ h]
    simp [ForwardRun.allEffects]
  · intro tcpUpstream h
    subst h
    rw [forward_connected]

/-- C4: `forward` ends the process through `log.Fatal` exactly when the dial
returns a non-nil error that is not a context cancellation; when the dial error
is a cancellation, `forward` returns after the dial alone: no log line, no fatal
exit, no copy goroutine. -/
theorem C4_forward_fatal_iff (dial : DialResult) (copyDown copyUp : Option GoError)
    (downstream : Conn) (addr : String) (tlsConfig : Option TLSConfig) :
    ((forward dial copyDown copyUp downstream addr tlsConfig).fatal = true
        ↔ ∃ err, dial.err = some err ∧ errorsIs (some err) .contextCanceled = false)
      ∧ ((∃ msg, Effect.logFatal msg ∈
            (forward dial copyDown copyUp downstream addr tlsConfig).allEffects)
        ↔ ∃ err, dial.err = some err ∧ errorsIs (some err) .contextCanceled = false)
      ∧ (errorsIs dial.err .contextCanceled = true →
          forward dial copyDown copyUp downstream addr tlsConfig
            = { body := [.dialContext "tcp" addr], tasks := [], fatal := false }) := by
  refine ⟨?_, ?_, forward_canceled dial copyDown copyUp downstream addr tlsConfig⟩
  · cases dial with
    | connected tcpUpstream =>
        rw [forward_connected]
        simp [DialResult.err]
    | failed err =>
        cases hc : errorsIs (some err) .contextCanceled with
        | true =>
            rw [forward_canceled _ _ _ _ _ _ (by simpa [DialResult.err] using hc)]
            simp [DialResult.err, hc]
        | false =>
            rw [forward_failed _ _ _ _ _ _ hc]
            simp [DialResult.err, hc]
  · cases dial with
    | connected tcpUpstream =>
        rw [forward_connected]
        cases copyDown <;> cases copyUp <;>
          simp [DialResult.err, ForwardRun.allEffects, copyTask]
    | failed err =>
        cases hc : errorsIs (some err) .contextCanceled with
        | true =>
            rw [forward_canceled _ _ _ _ _ _ (by simpa [DialResult.err] using hc)]
            simp [DialResult.err, hc, ForwardRun.allEffects]
        | false =>
            rw [forward_failed _ _ _ _ _ _ hc]
            simp [DialResult.err, hc, ForwardRun.allEffects]

/-! ## Claims about the accept loop -/

theorem acceptIter_closed_done (err : GoError) (addr : String) (tlsConfig : Option TLSConfig)
    (h : err.Error = "listener was closed") :
    acceptIter (.fail err) true addr tlsConfig = ([.accept], .breakLoop) := by
  simp [acceptIter, h]

theorem acceptIter_closed_not_done (err : GoError) (addr : String)
    (tlsConfig : Option TLSConfig) :
    acceptIter (.fail err) false addr tlsConfig
      = ([.accept, .fmtPrintf ("failed to accept connection: " ++ err.Error ++ "\n")],
          .continueLoop) := by
  simp [acceptIter]

theorem acceptIter_other_error (err : GoError) (ctxDone : Bool) (addr : String)
    (tlsConfig : Option TLSConfig) (h : err.Error ≠ "listener was closed") :
    acceptIter (.fail err) ctxDone addr tlsConfig
      = ([.accept, .fmtPrintf ("failed to accept connection: " ++ err.Error ++ "\n")],
          .continueLoop) := by
  simp [acceptIter, h]

theorem acceptLoop_continue (addr : String) (tlsConfig : Option TLSConfig)
    (r : AcceptResult) (ctxDone : Bool) (effs : List Effect)
    (rest : List (AcceptResult × Bool))
    (h : acceptIter r ctxDone addr tlsConfig = (effs, .continueLoop)) :
    acceptLoop addr tlsConfig ((r, ctxDone) :: rest)
      = (effs ++ (acceptLoop addr tlsConfig rest).1, (acceptLoop addr tlsConfig rest).2) := by
  simp [acceptLoop, h]

theorem acceptLoop_closed_never_leaves (err : GoError) (addr : String)
    (tlsConfig : Option TLSConfig) (n : Nat) :
    (acceptLoop addr tlsConfig (List.replicate n (.fail err, false))).2 = false
      ∧ acceptCalls (acceptLoop addr tlsConfig (List.replicate n (.fail err, false))).1 = n := by
  induction n with
  | zero => simp [acceptLoop, acceptCalls]
  | succ k ih =>
      rw [List.replicate_succ,
        acceptLoop_continue addr tlsConfig _ _ _ _ (acceptIter_closed_not_done err addr tlsConfig)]
      refine ⟨ih.1, ?_⟩
      have h2 := ih.2
      simp only [acceptCalls] at h2 ⊢
      simp [List.count_cons, h2]

/-- C2, as stated, fails: with the context not cancelled, an accept that fails
with "listener was closed" does not leave the loop, and on a listener that
answers every accept with that error the loop has made four accept calls after
four answers and is still running. -/
theorem C2_counterexample :
    (acceptIter (.fail listenerClosed) false "localhost:8080" none).2 = .continueLoop
      ∧ (acceptLoop "localhost:8080" none (List.replicate 4 (.fail listenerClosed, false))).2
          = false
      ∧ acceptCalls
          (acceptLoop "localhost:8080" none (List.replicate 4 (.fail listenerClosed, false))).1
          = 4 := by
  refine ⟨?_, ?_, ?_⟩
  · simp [acceptIter]
  · exact (acceptLoop_closed_never_leaves listenerClosed "localhost:8080" none 4).1
  · exact (acceptLoop_closed_never_leaves listenerClosed "localhost:8080" none 4).2

/-- C2, amended: when accept fails with the handle-closed error while the context
is not cancelled, the loop does not exit: it reports the error as a failed
accept, dispatches no forwarder and goes on to the next accept call. On a
listener that answers every accept with that error while the context stays
uncancelled, the loop has made `n` accept calls after `n` answers, for every
`n`, and has not left. -/
theorem C2_closed_without_shutdown_continues (err : GoError) (addr : String)
    (tlsConfig : Option TLSConfig) (h : err.Error = "listener was closed") :
    acceptIter (.fail err) false addr tlsConfig
        = ([.accept, .fmtPrintf "failed to accept connection: listener was closed\n"],
            .continueLoop)
      ∧ ∀ n : Nat,
          (acceptLoop addr tlsConfig (List.replicate n (.fail err, false))).2 = false
            ∧ acceptCalls (acceptLoop addr tlsConfig (List.replicate n (.fail err, false))).1
                = n := by
  refine ⟨?_, acceptLoop_closed_never_leaves err addr tlsConfig⟩
  rw [acceptIter_closed_not_done, h]
  rfl

/-- Witness of C2, amended, at the error value `errors.New("listener was closed")`. -/
theorem C2_closed_without_shutdown_continues_witness :
    listenerClosed.Error = "listener was closed"
      ∧ acceptIter (.fail listenerClosed) false "localhost:8080" none
          = ([.accept, .fmtPrintf "failed to accept connection: listener was closed\n"],
              .continueLoop)
      ∧ ∀ n : Nat,
          (acceptLoop "localhost:8080" none (List.replicate n (.fail listenerClosed, false))).2
              = false
            ∧ acceptCalls
                (acceptLoop "localhost:8080" none
                  (List.replicate n (.fail listenerClosed, false))).1 = n :=
  ⟨rfl, C2_closed_without_shutdown_continues listenerClosed "localhost:8080" none rfl⟩

/-- C3: when accept returns the handle-closed error and the context is already
cancelled, the loop exits at once. Whatever the listener would answer afterwards,
the effects of the loop from that iteration on are the one accept call: no
further accept, no forwarder dispatched, no failed-accept report. -/
theorem C3_closed_after_shutdown_exits (err : GoError) (addr : String)
    (tlsConfig : Option TLSConfig) (rest : List (AcceptResult × Bool))
    (h : err.Error = "listener was closed") :
    acceptIter (.fail err) true addr tlsConfig = ([.accept], .breakLoop)
      ∧ acceptLoop addr tlsConfig ((.fail err, true) :: rest) = ([.accept], true) := by
  have hi := acceptIter_closed_done err addr tlsConfig h
  exact ⟨hi, by simp [acceptLoop, hi]⟩

/-- Witness of C3: the closed listener answers, the context is cancelled, and a
connection that would be accepted next is never asked for. -/
theorem C3_closed_after_shutdown_exits_witness :
    listenerClosed.Error = "listener was closed"
      ∧ acceptIter (.fail listenerClosed) true "localhost:8080" none = ([.accept], .breakLoop)
      ∧ acceptLoop "localhost:8080" none
          [(.fail listenerClosed, true), (.conn demoDownstream, true)] = ([.accept], true) :=
  ⟨rfl, C3_closed_after_shutdown_exits listenerClosed "localhost:8080" none
    [(.conn demoDownstream, true)] rfl⟩

/-- C9: when accept returns a non-nil error that is not the handle-closed error,
then whether or not the context is cancelled the loop prints the failure,
dispatches no forwarder, and continues: the effects of the loop are the accept
call and the report, followed by those of the loop on the remaining answers. -/
theorem C9_other_accept_error_continues (err : GoError) (ctxDone : Bool) (addr : String)
    (tlsConfig : Option TLSConfig) (rest : List (AcceptResult × Bool))
    (h : err.Error ≠ "listener was closed") :
    acceptIter (.fail err) ctxDone addr tlsConfig
        = ([.accept, .fmtPrintf ("failed to accept connection: " ++ err.Error ++ "\n")],
            .continueLoop)
      ∧ acceptLoop addr tlsConfig ((.fail err, ctxDone) :: rest)
        = ([.accept, .fmtPrintf ("failed to accept connection: " ++ err.Error ++ "\n")]
              ++ (acceptLoop addr tlsConfig rest).1,
            (acceptLoop addr tlsConfig rest).2) := by
  have hi := acceptIter_other_error err ctxDone addr tlsConfig h
  exact ⟨hi, acceptLoop_continue addr tlsConfig _ _ _ rest hi⟩

/-- Witness of C9: a timeout error with the context cancelled, followed by a
successful accept. -/
theorem C9_other_accept_error_continues_witness :
    (GoError.errorString "i/o timeout").Error ≠ "listener was closed"
      ∧ acceptIter (.fail (.errorString "i/o timeout")) true "localhost:8080" none
        = ([.accept,
            .fmtPrintf ("failed to accept connection: "
              ++ (GoError.errorString "i/o timeout").Error ++ "\n")],
            .continueLoop)
      ∧ acceptLoop "localhost:8080" none
          [(.fail (.errorString "i/o timeout"), true), (.conn demoDownstream, true)]
        = ([.accept,
            .fmtPrintf ("failed to accept connection: "
              ++ (GoError.errorString "i/o timeout").Error ++ "\n")]
              ++ (acceptLoop "localhost:8080" none [(.conn demoDownstream, true)]).1,
            (acceptLoop "localhost:8080" none [(.conn demoDownstream, true)]).2) :=
  ⟨by decide, C9_other_accept_error_continues (.errorString "i/o timeout") true
    "localhost:8080" none [(.conn demoDownstream, true)] (by decide)⟩

/-! ## Claims about the configuration -/

theorem mainTLSConfig_plain (f : Flags) (w : World) (h : f.localHttps = false) :
    mainTLSConfig f w = .ok none := by
  simp [mainTLSConfig, h]

theorem mainTLSConfig_missing (f : Flags) (w : World) (h : f.localHttps = true)
    (hm : f.localCert = "" ∨ f.localKey = "") :
    mainTLSConfig f w = .error "invalid args: --local-key or --local-cert is undefined" := by
  simp [mainTLSConfig, h, hm]

theorem mainTLSConfig_https (f : Flags) (w : World) (tlsConfig : Option TLSConfig)
    (h : f.localHttps = true) (hok : mainTLSConfig f w = .ok tlsConfig) :
    ∃ cfg, tlsConfig = some cfg ∧ cfg.ServerName = f.localHost ∧ cfg.RootCAs = none
      ∧ cfg.InsecureSkipVerify = f.allowInvalidCert := by
  unfold mainTLSConfig at hok
  simp only [h, if_true] at hok
  split at hok
  · cases hok
  · split at hok
    · cases hok
    · split at hok
      · split at hok
        · cases hok
        · split at hok
          · cases hok
          · cases hok
            refine ⟨_, rfl, ?_, ?_, ?_⟩
            · split <;> rfl
            · split <;> rfl
            · cases f.allowInvalidCert <;> simp
      · cases hok
        refine ⟨_, rfl, ?_, ?_, ?_⟩
        · split <;> rfl
        · split <;> rfl
        · cases f.allowInvalidCert <;> simp

theorem mainStartup_tls_error (f : Flags) (w : World) (msg : String)
    (h : mainTLSConfig f w = .error msg) :
    mainStartup f w = ([.logFatal msg], .exited 1) := by
  simp [mainStartup, h]

theorem mainStartup_listening (f : Flags) (w : World) (tlsConfig : Option TLSConfig)
    (addr : String) (h : (mainStartup f w).2 = .listening tlsConfig addr) :
    mainTLSConfig f w = .ok tlsConfig := by
  unfold mainStartup at h
  split at h
  · cases h
  · rename_i t ht
    split at h
    · cases h
    · split at h
      · cases h
      · split at h
        · cases h
        · simp only at h
          split at h
          · cases h
          · cases h
            exact ht

/-- C10: on a successful dial the two goroutines of `forward` are started on, and
run `io.Copy` between, the downstream connection and one upstream endpoint, in
the two directions, and `forward` copies between no other pair; that endpoint is
the TCP connection itself exactly when `tlsConfig` is nil and `tls.Client` over
that TCP connection with the given configuration exactly when it is not; and the
`tlsConfig` with which `main` reaches the accept loop is nil exactly when
local-https is not set, and otherwise has the local-host value as its server
name. -/
theorem C10_upstream_endpoint (f : Flags) (w : World) (tlsConfig : Option TLSConfig)
    (addr : String) (tcpUpstream downstream : Conn) (copyDown copyUp : Option GoError)
    (h : (mainStartup f w).2 = .listening tlsConfig addr) :
    (forward (.connected tcpUpstream) copyDown copyUp downstream addr tlsConfig).body
        = [.dialContext "tcp" addr,
           .setKeepAlive tcpUpstream true,
           .goCopy downstream (upstreamConn tcpUpstream tlsConfig),
           .goCopy (upstreamConn tcpUpstream tlsConfig) downstream]
      ∧ (forward (.connected tcpUpstream) copyDown copyUp downstream addr tlsConfig).tasks
        = [Effect.ioCopy downstream (upstreamConn tcpUpstream tlsConfig)
              :: (match copyDown with
                  | none => []
                  | some e => [Effect.loggerPrintln ("stream error: " ++ e.Error)]),
           Effect.ioCopy (upstreamConn tcpUpstream tlsConfig) downstream
              :: (match copyUp with
                  | none => []
                  | some e => [Effect.loggerPrintln ("stream error: " ++ e.Error)])]
      ∧ (∀ dst src : Conn,
          Effect.ioCopy dst src
              ∈ (forward (.connected tcpUpstream) copyDown copyUp downstream addr
                  tlsConfig).allEffects
            ↔ (dst = downstream ∧ src = upstreamConn tcpUpstream tlsConfig)
              ∨ (dst = upstreamConn tcpUpstream tlsConfig ∧ src = downstream))
      ∧ (upstreamConn tcpUpstream tlsConfig = tcpUpstream ↔ tlsConfig = none)
      ∧ (∀ cfg, upstreamConn tcpUpstream tlsConfig = .tlsClient tcpUpstream cfg
            ↔ tlsConfig = some cfg)
      ∧ (tlsConfig = none ↔ f.localHttps = false)
      ∧ (∀ cfg, tlsConfig = some cfg → cfg.ServerName = f.localHost) := by
  have hok := mainStartup_listening f w tlsConfig addr h
  refine ⟨by rw [forward_connected], ?_, ?_, ?_, ?_, ?_, ?_⟩
  · rw [forward_connected]
    cases copyDown <;> cases copyUp <;> simp [copyTask]
  · intro dst src
    rw [forward_connected]
    cases copyDown <;> cases copyUp <;> simp [ForwardRun.allEffects, copyTask]
  · cases tlsConfig with
    | none => simp [upstreamConn]
    | some cfg => simpa [upstreamConn] using tlsClient_ne_inner tcpUpstream cfg
  · intro cfg
    cases tlsConfig with
    | none =>
        simp only [upstreamConn]
        constructor
        · intro hc
          exact absurd hc.symm (tlsClient_ne_inner tcpUpstream cfg)
        · intro hc
          cases hc
    | some cfg0 => simp [upstreamConn]
  · cases hh : f.localHttps with
    | false =>
        rw [mainTLSConfig_plain f w hh] at hok
        cases hok
        simp
    | true =>
        obtain ⟨cfg, hcfg, _⟩ := mainTLSConfig_https f w tlsConfig hh hok
        simp [hcfg]
  · intro cfg hcfg
    cases hh : f.localHttps with
    | false =>
        rw [mainTLSConfig_plain f w hh] at hok
        cases hok
        cases hcfg
    | true =>
        obtain ⟨cfg1, hcfg1, hname, _⟩ := mainTLSConfig_https f w tlsConfig hh hok
        rw [hcfg] at hcfg1
        cases hcfg1
        exact hname

/-- Witness of C10: local-https with certificate, key and CA files that load; the
two goroutines copy between the tunnel connection and the TLS client session
over the dialled TCP connection. -/
theorem C10_upstream_endpoint_witness :
    (mainStartup httpsFlags healthyWorld).2 = .listening (some httpsPolicy) "localhost:8080"
      ∧ (forward (.connected demoTCP) none none demoDownstream "localhost:8080"
            (some httpsPolicy)).body
          = [.dialContext "tcp" "localhost:8080",
             .setKeepAlive demoTCP true,
             .goCopy demoDownstream (.tlsClient demoTCP httpsPolicy),
             .goCopy (.tlsClient demoTCP httpsPolicy) demoDownstream]
      ∧ (forward (.connected demoTCP) none none demoDownstream "localhost:8080"
            (some httpsPolicy)).tasks
          = [[.ioCopy demoDownstream (.tlsClient demoTCP httpsPolicy)],
             [.ioCopy (.tlsClient demoTCP httpsPolicy) demoDownstream]]
      ∧ (∀ dst src : Conn,
          Effect.ioCopy dst src
              ∈ (forward (.connected demoTCP) none none demoDownstream "localhost:8080"
                  (some httpsPolicy)).allEffects
            ↔ (dst = demoDownstream ∧ src = .tlsClient demoTCP httpsPolicy)
              ∨ (dst = .tlsClient demoTCP httpsPolicy ∧ src = demoDownstream))
      ∧ (Conn.tlsClient demoTCP httpsPolicy = demoTCP ↔ some httpsPolicy = none)
      ∧ (∀ cfg, Conn.tlsClient demoTCP httpsPolicy = .tlsClient demoTCP cfg
            ↔ some httpsPolicy = some cfg)
      ∧ (some httpsPolicy = none ↔ httpsFlags.localHttps = false)
      ∧ (∀ cfg, some httpsPolicy = some cfg → cfg.ServerName = httpsFlags.localHost) :=
  ⟨by rfl, C10_upstream_endpoint httpsFlags healthyWorld (some httpsPolicy) "localhost:8080"
    demoTCP demoDownstream none none (by rfl)⟩

/-- C6, as stated, fails: with `--port 8080 --local-https` and no certificate or
key, a fatal configuration error of the claim, the program ends in `log.Fatal`
and its effects do not include the usage text. -/
theorem C6_counterexample :
    (missingCertFlags.localHttps = true
        ∧ (missingCertFlags.localCert = "" ∨ missingCertFlags.localKey = ""))
      ∧ mainStartup missingCertFlags healthyWorld
          = ([.logFatal "invalid args: --local-key or --local-cert is undefined"], .exited 1)
      ∧ Effect.printUsage ∉ (mainStartup missingCertFlags healthyWorld).1 := by
  have h : mainStartup missingCertFlags healthyWorld
      = ([.logFatal "invalid args: --local-key or --local-cert is undefined"], .exited 1) :=
    mainStartup_tls_error _ _ _ (mainTLSConfig_missing _ _ rfl (Or.inl rfl))
  refine ⟨⟨rfl, Or.inl rfl⟩, h, ?_⟩
  rw [h]
  simp

/-- C6, amended: for every configuration that is a fatal configuration error
(local-https set with the certificate or key path missing, or port 0 with neither
help nor version requested) the program exits with status 1 and never calls
`lt.Listen`. The usage text is printed only for the missing port, and only when
the TLS block raised no fatal error: the effects are then the missing-port
message, the usage text and `os.Exit(1)`. When the TLS block fails, as it does
whenever local-https is set with the certificate or key path missing, the only
effect is `log.Fatal` with the message of that failure, without usage text. -/
theorem C6_fatal_configuration (f : Flags) (w : World)
    (h : (f.localHttps = true ∧ (f.localCert = "" ∨ f.localKey = ""))
      ∨ (f.port = 0 ∧ f.help = false ∧ f.version = false)) :
    (mainStartup f w).2 = .exited 1
      ∧ (∀ e ∈ (mainStartup f w).1, e.isListen = false)
      ∧ (f.localHttps = true ∧ (f.localCert = "" ∨ f.localKey = "") →
          (mainStartup f w).1
            = [.logFatal "invalid args: --local-key or --local-cert is undefined"])
      ∧ (∀ msg, mainTLSConfig f w = .error msg → (mainStartup f w).1 = [.logFatal msg])
      ∧ (∀ tlsConfig, mainTLSConfig f w = .ok tlsConfig →
          (mainStartup f w).1
            = [.println "missing required argument: port", .printUsage, .osExit 1]) := by
  have hmissing : f.localHttps = true ∧ (f.localCert = "" ∨ f.localKey = "") →
      mainTLSConfig f w = .error "invalid args: --local-key or --local-cert is undefined" :=
    fun hm => mainTLSConfig_missing f w hm.1 hm.2
  have hport : ∀ tlsConfig, mainTLSConfig f w = .ok tlsConfig →
      mainStartup f w
        = ([.println "missing required argument: port", .printUsage, .osExit 1], .exited 1) := by
    intro tlsConfig hok
    rcases h with hm | ⟨hp, hh, hv⟩
    · rw [hmissing hm] at hok
      cases hok
    · simp [mainStartup, hok, hp, hh, hv]
  cases hcfg : mainTLSConfig f w with
  | error msg =>
      have hs := mainStartup_tls_error f w msg hcfg
      refine ⟨by rw [hs], ?_, ?_, ?_, ?_⟩
      · intro e he
        rw [hs] at he
        simp at he
        subst he
        rfl
      · intro hm
        rw [hmissing hm] at hcfg
        cases hcfg
        rw [hs]
      · intro msg1 h1
        cases h1
        rw [hs]
      · intro tlsConfig h1
        cases h1
  | ok tlsConfig =>
      have hs := hport tlsConfig hcfg
      refine ⟨by rw [hs], ?_, ?_, ?_, ?_⟩
      · intro e he
        rw [hs] at he
        simp at he
        rcases he with he | he | he <;> subst he <;> rfl
      · intro hm
        rw [hmissing hm] at hcfg
        cases hcfg
      · intro msg1 h1
        cases h1
      · intro tlsConfig1 _
        rw [hs]

/-- Witness of C6, amended: no flag given, so the port is 0. -/
theorem C6_fatal_configuration_witness :
    ((missingPortFlags.localHttps = true
          ∧ (missingPortFlags.localCert = "" ∨ missingPortFlags.localKey = ""))
        ∨ (missingPortFlags.port = 0 ∧ missingPortFlags.help = false
          ∧ missingPortFlags.version = false))
      ∧ (mainStartup missingPortFlags healthyWorld).2 = .exited 1
      ∧ (mainStartup missingPortFlags healthyWorld).1
          = [.println "missing required argument: port", .printUsage, .osExit 1] :=
  ⟨Or.inr ⟨rfl, rfl, rfl⟩,
    (C6_fatal_configuration missingPortFlags healthyWorld (Or.inr ⟨rfl, rfl, rfl⟩)).1,
    (C6_fatal_configuration missingPortFlags healthyWorld (Or.inr ⟨rfl, rfl, rfl⟩)).2.2.2.2
      none rfl⟩

/-- C7, the code at the failing input: with local-https and a CA file that is
read and holds a certificate, the configuration passed to `forward` holds the
pool loaded from that file in `ClientCAs`, and its `RootCAs`, the pool a TLS
client verifies the server against, is nil. -/
theorem C7_local_ca_not_in_RootCAs :
    mainTLSConfig httpsFlags healthyWorld = .ok (some httpsPolicy)
      ∧ (mainStartup httpsFlags healthyWorld).2 = .listening (some httpsPolicy) "localhost:8080"
      ∧ httpsPolicy.RootCAs = none
      ∧ httpsPolicy.ClientCAs = some ⟨["ca.pem"]⟩ :=
  ⟨by rfl, by rfl, rfl, rfl⟩

/-- C8, the code at the failing input: with `--port 8080 --local-https
--allow-invalid-cert` and no certificate or key, the TLS block ends in
`log.Fatal`, no configuration is produced and the tunnel is never opened. -/
theorem C8_allow_invalid_cert_still_needs_cert :
    mainTLSConfig insecureFlags healthyWorld
        = .error "invalid args: --local-key or --local-cert is undefined"
      ∧ mainStartup insecureFlags healthyWorld
        = ([.logFatal "invalid args: --local-key or --local-cert is undefined"], .exited 1) :=
  ⟨mainTLSConfig_missing _ _ rfl (Or.inl rfl),
    mainStartup_tls_error _ _ _ (mainTLSConfig_missing _ _ rfl (Or.inl rfl))⟩

/-! ## Claims about shutdown -/

theorem closesAt_append (site : CloseSite) (xs ys : List Effect) :
    closesAt site (xs ++ ys) = closesAt site xs + closesAt site ys := by
  simp [closesAt, List.count_append]

theorem closesAt_acceptIter (site : CloseSite) (r : AcceptResult) (ctxDone : Bool)
    (addr : String) (tlsConfig : Option TLSConfig) :
    closesAt site (acceptIter r ctxDone addr tlsConfig).1 = 0 := by
  cases r with
  | conn c => simp [acceptIter, closesAt]
  | fail err =>
      simp only [acceptIter]
      split <;> simp [closesAt]

theorem stepMain_inv (p : Proc) (accepted : AcceptResult) (closeErr : Option GoError)
    (h : CloseInv p) : CloseInv (stepMain p accepted closeErr) := by
  obtain ⟨h1, h2⟩ := h
  unfold stepMain
  cases hpc : p.mainPc with
  | accepting =>
      have h0 := fun site => closesAt_acceptIter site accepted p.ctxDone p.upstreamAddr p.tlsConfig
      simp only
      split
      · rename_i effs heq
        have e1 := h0 .signalHandler
        have e2 := h0 .deferred
        rw [heq] at e1 e2
        simp only at e1 e2
        refine ⟨?_, ?_⟩
        · simp only [closesAt_append, e1, h1, Nat.add_zero]
        · simp only [closesAt_append, e2, h2, hpc, Nat.add_zero]
          simp
      · rename_i effs heq
        have e1 := h0 .signalHandler
        have e2 := h0 .deferred
        rw [heq] at e1 e2
        simp only at e1 e2
        refine ⟨?_, ?_⟩
        · simp only [closesAt_append, e1, h1, Nat.add_zero]
        · simp only [closesAt_append, e2, h2, hpc, Nat.add_zero]
  | deferCancel =>
      simp only
      refine ⟨?_, ?_⟩
      · simp only [closesAt_append, h1]
        simp [closesAt]
      · simp only [closesAt_append, h2, hpc]
        simp [closesAt]
  | deferClose =>
      simp only
      cases closeErr with
      | none =>
          refine ⟨?_, ?_⟩
          · simp only [closesAt_append, h1]
            simp [closesAt]
          · simp only [closesAt_append, h2, hpc]
            simp [closesAt]
      | some err =>
          refine ⟨?_, ?_⟩
          · simp only [closesAt_append, h1]
            simp [closesAt]
          · simp only [closesAt_append, h2, hpc]
            simp [closesAt]
  | returned => exact ⟨h1, by rw [h2, hpc]⟩

theorem stepHandler_inv (p : Proc) (closeErr : Option GoError)
    (h : CloseInv p) : CloseInv (stepHandler p closeErr) := by
  obtain ⟨h1, h2⟩ := h
  unfold stepHandler
  cases hpc : p.handlerPc with
  | waiting =>
      simp only
      cases hs : p.sigs with
      | none => exact ⟨by rw [h1, hpc], h2⟩
      | some sig =>
          refine ⟨?_, ?_⟩
          · simp only [closesAt_append, h1, hpc]
            simp [closesAt]
          · simp only [closesAt_append, h2]
            simp [closesAt]
  | cancel =>
      simp only
      refine ⟨?_, ?_⟩
      · simp only [closesAt_append, h1, hpc]
        simp [closesAt]
      · simp only [closesAt_append, h2]
        simp [closesAt]
  | close =>
      simp only
      cases closeErr with
      | none =>
          refine ⟨?_, ?_⟩
          · simp only [closesAt_append, h1, hpc]
            simp [closesAt]
          · simp only [closesAt_append, h2]
            simp [closesAt]
      | some err =>
          refine ⟨?_, ?_⟩
          · simp only [closesAt_append, h1, hpc]
            simp [closesAt]
          · simp only [closesAt_append, h2]
            simp [closesAt]
  | finished => exact ⟨by rw [h1, hpc], h2⟩

theorem step_inv (p : Proc) (s : Sched) (h : CloseInv p) : CloseInv (step p s) := by
  unfold step
  split
  · exact h
  · cases s with
    | signal sig =>
        simp only
        split
        · exact h
        · exact h
    | stepMain accepted closeErr => exact stepMain_inv p accepted closeErr h
    | stepHandler closeErr => exact stepHandler_inv p closeErr h

theorem run_inv (sched : List Sched) (p : Proc) (h : CloseInv p) : CloseInv (run p sched) := by
  induction sched generalizing p with
  | nil => exact h
  | cons s rest ih => exact ih (step p s) (step_inv p s h)

theorem init_inv (addr : String) (tlsConfig : Option TLSConfig) :
    CloseInv (Proc.init addr tlsConfig) := by
  simp [CloseInv, Proc.init, closesAt]

theorem run_signalSchedule_trace (lastClose : Option GoError) :
    (run (Proc.init "localhost:8080" none) (signalSchedule lastClose)).trace
      = [.fmtPrintln "interrupt received, exiting...", .ctxCancel,
         .listenerClose .signalHandler, .accept, .ctxCancel, .listenerClose .deferred]
        ++ (match lastClose with
            | none => []
            | some _ => [.logFatal "failed to close local tunnel connection"]) := by
  cases lastClose <;> rfl

theorem run_signalSchedule_exited (lastClose : Option GoError) :
    (run (Proc.init "localhost:8080" none) (signalSchedule lastClose)).exited
      = (match lastClose with
         | none => some 0
         | some _ => some 1) := by
  cases lastClose <;> rfl

/-- C5, as stated, fails: in the run where SIGINT arrives, the handler cancels
and closes the listener, and `main` then leaves the loop on the handle-closed
error, `listener.Close()` is called twice, once by the handler and once by the
deferred cleanup of `main`; and when that second call returns an error the
process ends in `log.Fatal` with status 1. -/
theorem C5_counterexample :
    Effect.fmtPrintln "interrupt received, exiting..."
        ∈ (run (Proc.init "localhost:8080" none) (signalSchedule none)).trace
      ∧ closeCalls (run (Proc.init "localhost:8080" none) (signalSchedule none)).trace = 2
      ∧ closeCalls (run (Proc.init "localhost:8080" none)
          (signalSchedule (some (.errorString "already closed")))).trace = 2
      ∧ (run (Proc.init "localhost:8080" none)
          (signalSchedule (some (.errorString "already closed")))).exited = some 1
      ∧ Effect.logFatal "failed to close local tunnel connection"
        ∈ (run (Proc.init "localhost:8080" none)
            (signalSchedule (some (.errorString "already closed")))).trace := by
  refine ⟨?_, ?_, ?_, ?_, ?_⟩
  · rw [run_signalSchedule_trace]
    simp
  · rw [run_signalSchedule_trace]
    simp [closeCalls, closesAt]
  · rw [run_signalSchedule_trace]
    simp [closeCalls, closesAt]
  · rw [run_signalSchedule_exited]
  · rw [run_signalSchedule_trace]
    simp

/-- C5, amended: in every execution, with or without a termination signal,
`listener.Close()` is called at most once by the signal handler and at most once
by the deferred cleanup of `main`, so at most twice over the whole run. The two
sites are not guarded against each other: there is a run with a signal in which
both calls are made. An error returned by the call at either site ends the
process through `log.Fatal` with status 1. -/
theorem C5_close_at_most_once_per_site (addr : String) (tlsConfig : Option TLSConfig)
    (sched : List Sched) :
    closesAt .signalHandler (run (Proc.init addr tlsConfig) sched).trace ≤ 1
      ∧ closesAt .deferred (run (Proc.init addr tlsConfig) sched).trace ≤ 1
      ∧ closeCalls (run (Proc.init addr tlsConfig) sched).trace ≤ 2
      ∧ (∃ sched2 : List Sched,
          Effect.fmtPrintln "interrupt received, exiting..."
              ∈ (run (Proc.init "localhost:8080" none) sched2).trace
            ∧ closeCalls (run (Proc.init "localhost:8080" none) sched2).trace = 2)
      ∧ (∀ (p : Proc) (err : GoError), p.exited = none → p.handlerPc = .close →
          (step p (.stepHandler (some err))).exited = some 1
            ∧ (step p (.stepHandler (some err))).trace
              = p.trace ++ [.listenerClose .signalHandler,
                  .logFatal ("failed to stop localtunnel listener:" ++ err.Error)])
      ∧ (∀ (p : Proc) (accepted : AcceptResult) (err : GoError), p.exited = none →
          p.mainPc = .deferClose →
          (step p (.stepMain accepted (some err))).exited = some 1
            ∧ (step p (.stepMain accepted (some err))).trace
              = p.trace ++ [.listenerClose .deferred,
                  .logFatal "failed to close local tunnel connection"]) := by
  obtain ⟨h1, h2⟩ := run_inv sched _ (init_inv addr tlsConfig)
  have b1 : closesAt .signalHandler (run (Proc.init addr tlsConfig) sched).trace ≤ 1 := by
    rw [h1]
    split <;> omega
  have b2 : closesAt .deferred (run (Proc.init addr tlsConfig) sched).trace ≤ 1 := by
    rw [h2]
    split <;> omega
  refine ⟨b1, b2, ?_, ?_, ?_, ?_⟩
  · unfold closeCalls
    omega
  · refine ⟨signalSchedule none, ?_, ?_⟩
    · rw [run_signalSchedule_trace]
      simp
    · rw [run_signalSchedule_trace]
      simp [closeCalls, closesAt]
  · intro p err he hpc
    simp [step, stepHandler, he, hpc]
  · intro p accepted err he hpc
    simp [step, stepMain, he, hpc]

end Localtunnel
